import Mathlib

set_option maxRecDepth 8000

/-!
# Verification of the dog-project transfer-learning notebook

A shallow embedding of src/transfer_learning.ipynb.  The notebook is a
linear script: it loads the dog-image dataset with one-hot targets,
defines three builders for InceptionV3-based models (random weights,
fine-tunable ImageNet weights, frozen ImageNet weights), sweeps
optimizer/learning-rate pairs training a fresh model per pair, and
prints the collected results.

Framework calls (sklearn load_files, keras np_utils.to_categorical,
InceptionV3, Model, compile, fit) are modelled just deeply enough for
the verified properties; the notebook code itself is translated
line by line.
-/

namespace DogProject

/-- A dataset directory in the conventional image-folder layout: a list of
class subdirectories, each with its subdirectory name and the image file
names it holds.  Model of the on-disk input of sklearn load_files. -/
structure ImageFolder where
  classes : List (String × List String)
deriving Repr, DecidableEq

/-- Model of sklearn.datasets.load_files: returns the file paths and, in
parallel, the integer class index of each file.  sklearn sorts class
names and shuffles the files; both are permutations of the enumeration
used here, and every property verified below is invariant under those
permutations. -/
def load_files (d : ImageFolder) : List String × List Nat :=
  ((d.classes.enum.flatMap fun c => c.2.2.map fun f => c.2.1 ++ "/" ++ f),
   (d.classes.enum.flatMap fun c => c.2.2.map fun _ => c.1))

/-- Model of keras np_utils.to_categorical y num_classes: a matrix with one
row per label, each row of width num_classes holding 1 at the label index
and 0 elsewhere.  A label outside 0..num_classes-1 makes the underlying
numpy fancy-indexing assignment raise IndexError, modelled as none. -/
def to_categorical (y : List Nat) (num_classes : Nat) : Option (List (List Nat)) :=
  if y.all fun t => t < num_classes then
    some (y.map fun t => (List.range num_classes).map fun i => if i = t then 1 else 0)
  else
    none

/-- The load_dataset function of the notebook: load_files, then one-hot encode the
targets with the class count hard-coded to 133. -/
def load_dataset (d : ImageFolder) : Option (List String × List (List Nat)) :=
  let data := load_files d
  let dog_files := data.1
  let dog_targets := to_categorical data.2 133
  dog_targets.map fun tg => (dog_files, tg)

/-- dog_names: the glob "dogImages/train/*/" yields one path per class
subdirectory; item[20:-1] strips the 20-character leading
"dogImages/train/NNN." and the trailing slash. -/
def dog_names (d : ImageFolder) : List String :=
  (d.classes.map fun c => "dogImages/train/" ++ c.1 ++ "/").map
    fun item => String.mk (item.toList.drop 20).dropLast

/-- num_classes = len(dog_names), computed from the train directory. -/
def num_classes (d : ImageFolder) : Nat :=
  (dog_names d).length

/-! ## Keras model construction -/

/-- A keras layer, modelled by the attributes the notebook reads or
writes: its name, its Dense width (0 for layers without units), its
activation, the source of its initial weights, and the trainable flag. -/
structure Layer where
  name : String
  units : Nat
  activation : String
  weightsInit : String
  trainable : Bool
deriving Repr, DecidableEq

/-- A keras Model: its layer list and its input and output shapes. -/
structure KModel where
  layers : List Layer
  input_shape : List Nat
  output_shape : List Nat
deriving Repr, DecidableEq

/-- The i-th layer of the InceptionV3 convolutional base, with weights
taken from the weights argument of the constructor. -/
def inceptionLayer (weights : Option String) (i : Nat) : Layer :=
  { name := "inception_v3_layer_" ++ toString i
    units := 0
    activation := ""
    weightsInit := weights.getD "random"
    trainable := true }

/-- Model of keras.applications.inception_v3.InceptionV3 with
include_top=False: a fixed stack of 311 convolutional-base layers, all
initially trainable, whose weights come from the weights argument
(none means random initialization, as in the scratch model).  The
feature-map output for a 224-by-224 input is 5-by-5-by-2048. -/
def InceptionV3 (include_top : Bool) (weights : Option String)
    (input_shape : List Nat) : KModel :=
  { layers := (List.range 311).map (inceptionLayer weights)
    input_shape := input_shape
    output_shape := if include_top then [1000] else [5, 5, 2048] }

/-- The GlobalAveragePooling2D layer applied to the base output. -/
def gapLayer : Layer :=
  { name := "global_average_pooling2d", units := 0, activation := ""
    weightsInit := "none", trainable := true }

/-- A Dense layer with keras default glorot_uniform kernel initialization. -/
def denseLayer (units : Nat) (activation : String) : Layer :=
  { name := "dense", units := units, activation := activation
    weightsInit := "glorot_uniform", trainable := true }

/-- The result of running one of the three model-builder function
bodies: the base model and the extended model as they stand when the
function returns, and the Python return value (None when the body has
no return statement). -/
structure BuildResult where
  name : String
  base : KModel
  model : KModel
  ret : Option KModel
deriving Repr, DecidableEq

/-- create_scratch_model: InceptionV3 with weights=None, extended by
GlobalAveragePooling2D, Dense(512, relu) and Dense(num_classes, softmax);
the model is bound to a local variable and the body has no return
statement, so the call returns None. -/
def create_scratch_model (input_shape : List Nat) (nc : Nat) : BuildResult :=
  let base_scratch_model := InceptionV3 false none input_shape
  let scratch_model : KModel :=
    { layers := base_scratch_model.layers
        ++ [gapLayer, denseLayer 512 "relu", denseLayer nc "softmax"]
      input_shape := base_scratch_model.input_shape
      output_shape := [nc] }
  { name := "create_scratch_model"
    base := base_scratch_model
    model := scratch_model
    ret := none }

/-- create_finetune_model: InceptionV3 with weights="imagenet", extended
by the same head, and returned. -/
def create_finetune_model (input_shape : List Nat) (nc : Nat) : BuildResult :=
  let base_finetune_model := InceptionV3 false (some "imagenet") input_shape
  let finetune_model : KModel :=
    { layers := base_finetune_model.layers
        ++ [gapLayer, denseLayer 512 "relu", denseLayer nc "softmax"]
      input_shape := base_finetune_model.input_shape
      output_shape := [nc] }
  { name := "create_finetune_model"
    base := base_finetune_model
    model := finetune_model
    ret := some finetune_model }

/-- create_frozen_model: InceptionV3 with weights="imagenet", extended by
the same head; afterwards the for loop sets trainable = False on every
layer of the base model.  The Model built before the loop shares its
base-layer objects with the base model, so the mutation reaches both;
nothing other than the trainable flag is written.  The body has no
return statement, so the call returns None. -/
def create_frozen_model (input_shape : List Nat) (nc : Nat) : BuildResult :=
  let base_frozen_model := InceptionV3 false (some "imagenet") input_shape
  let frozenLayers := base_frozen_model.layers.map fun layer =>
    { layer with trainable := false }
  { name := "create_frozen_model"
    base := { base_frozen_model with layers := frozenLayers }
    model :=
      { layers := frozenLayers
          ++ [gapLayer, denseLayer 512 "relu", denseLayer nc "softmax"]
        input_shape := base_frozen_model.input_shape
        output_shape := [nc] }
    ret := none }

/-- Erase the trainable flags of a model, keeping everything else: two
models with the same image under this map differ at most in which layers
are trainable. -/
def forgetTrainable (m : KModel) : KModel :=
  { m with layers := m.layers.map fun layer => { layer with trainable := true } }

/-- Erase both the trainable flags and the weight initialization: the
image under this map is the bare architecture. -/
def forgetTrainableWeights (m : KModel) : KModel :=
  { m with layers := m.layers.map fun layer =>
      { layer with trainable := true, weightsInit := "" } }

/-! ## Training, the hyperparameter sweep, and result printing -/

/-- An image tensor.  The notebook only slices and passes tensors
through to framework calls, so their contents are uninterpreted data. -/
def Tensor := List ℚ
deriving instance Repr, DecidableEq for Tensor

/-- The optimizer object handed to model.compile, with the keyword
arguments exactly as written at the call sites (the adam branch really
does pass momentum to Adam). -/
inductive Optimizer where
  | SGD (lr : ℚ) (momentum : ℚ) (nesterov : Bool)
  | Adam (lr : ℚ) (momentum : ℚ) (beta_1 : ℚ) (beta_2 : ℚ) (epsilon : ℚ)
deriving Repr, DecidableEq

/-- The arguments the train function passes to model.fit. -/
structure FitCall where
  x : List Tensor
  y : List (List Nat)
  validation_x : List Tensor
  validation_y : List (List Nat)
  epochs : Nat
  batch_size : Nat
deriving Repr, DecidableEq

/-- A keras History object as returned by model.fit: the per-epoch
metric lists of its history dict. -/
structure History where
  loss : List ℚ
  acc : List ℚ
  val_loss : List ℚ
  val_acc : List ℚ
deriving Repr, DecidableEq

/-- What the framework computes is outside this repository: model.fit is
an oracle mapping the model, the compiled optimizer (none when compile
was never called) and the fit arguments to a History. -/
def FitOracle := KModel → Option Optimizer → FitCall → History

/-- Observable events of one notebook run, used to state ordering and
call-trace properties. -/
inductive Ev where
  | loadData (path : String)
  | preprocess (name : String)
  | createModel (builder : String)
  | compileCall (solver : String) (lr : ℚ)
  | fitCall (solver : String) (lr : ℚ)
  | appendResult (solver : String) (lr : ℚ)
  | printResults
deriving Repr, DecidableEq

/-- The global state the train function closes over: the loaded tensors
and targets, the shapes derived from them, and the epoch count.  The
notebook sets epochs = 2 and input_shape = train_tensors.shape[1:]. -/
structure Ctx where
  train_tensors : List Tensor
  train_targets : List (List Nat)
  valid_tensors : List Tensor
  valid_targets : List (List Nat)
  input_shape : List Nat
  nc : Nat
  epochs : Nat
deriving Repr

/-- Everything observable about one call of the train function. -/
structure TrainResult where
  compiled : Option Optimizer
  fit_args : FitCall
  events : List Ev
  ret : String × ℚ × History
deriving Repr

/-- epochs = 2. -/
def epochs : Nat := 2

/-- solvers = ["sgd"] (the three-solver list is commented out). -/
def solvers : List String := ["sgd"]

/-- learning_rates = [5e-4, 1e-3] (the three-rate list is commented out). -/
def learning_rates : List ℚ := [5 / 10000, 1 / 1000]

/-- Model of the Python str.lower() call on the solver name: lowercase
every character.  The notebook only ever passes ASCII solver names, on
which this agrees with Python. -/
def pyLower (s : String) : String :=
  String.mk (s.toList.map Char.toLower)

/-- The if/elif dispatch at the top of train: the optimizer compile is
called for solver.lower() equal to "sgd", "nesterov" or "adam", and for
no other solver string. -/
def compile_for (solver : String) (lr : ℚ) : Option Optimizer :=
  if pyLower solver = "sgd" then
    some (Optimizer.SGD lr (9 / 10) false)
  else if pyLower solver = "nesterov" then
    some (Optimizer.SGD lr (9 / 10) true)
  else if pyLower solver = "adam" then
    some (Optimizer.Adam lr (9 / 10) (9 / 10) (999 / 1000) (1 / 100000000))
  else
    none

/-- The train function: dispatch on solver.lower() to one of three
compile calls, falling through with no compile call when the name
matches none of them, then fit on the first 48 training and first 20
validation examples with batch_size 4, and return (solver, lr, result). -/
def train (ctx : Ctx) (fit : FitOracle) (model : KModel)
    (solver : String) (lr : ℚ) : TrainResult :=
  let compiled : Option Optimizer := compile_for solver lr
  let fit_args : FitCall :=
    { x := ctx.train_tensors.take 48
      y := ctx.train_targets.take 48
      validation_x := ctx.valid_tensors.take 20
      validation_y := ctx.valid_targets.take 20
      epochs := ctx.epochs
      batch_size := 4 }
  let result := fit model compiled fit_args
  { compiled := compiled
    fit_args := fit_args
    events := (match compiled with
      | some _ => [Ev.compileCall solver lr]
      | none => []) ++ [Ev.fitCall solver lr]
    ret := (solver, lr, result) }

/-- One iteration of the sweep body: model = create_finetune_model();
results.append(train(model, solver, lr)).  Were the builder to return
None, the iteration would produce no triple (Python would instead fail
inside train). -/
def sweepIter (ctx : Ctx) (fit : FitOracle) (solver : String) (lr : ℚ) :
    Option (String × ℚ × History) × List Ev :=
  let build := create_finetune_model ctx.input_shape ctx.nc
  match build.ret with
  | some model =>
      let tr := train ctx fit model solver lr
      (some tr.ret,
       Ev.createModel build.name :: tr.events ++ [Ev.appendResult solver lr])
  | none => (none, [Ev.createModel build.name])

/-- The results list built by the nested sweep loop (solvers outer,
learning rates inner). -/
def sweepResults (ctx : Ctx) (fit : FitOracle)
    (ss : List String) (ls : List ℚ) : List (String × ℚ × History) :=
  ss.flatMap fun solver => ls.filterMap fun lr => (sweepIter ctx fit solver lr).1

/-- The event trace of the nested sweep loop. -/
def sweepEvents (ctx : Ctx) (fit : FitOracle)
    (ss : List String) (ls : List ℚ) : List Ev :=
  ss.flatMap fun solver => ls.flatMap fun lr => (sweepIter ctx fit solver lr).2

/-- Python repr of a History object: class name and address only; the
address is run-dependent and omitted.  The history dict with the loss
values is not part of this repr. -/
def repr_history (_h : History) : String :=
  "<keras.callbacks.History object>"

/-- print(results): the console output, one (solver, lr, History-repr)
entry per result triple. -/
def print_results (results : List (String × ℚ × History)) :
    List (String × ℚ × String) :=
  results.map fun r => (r.1, r.2.1, repr_history r.2.2)

/-- The event trace of the whole notebook, top to bottom: three
load_dataset calls, three paths_to_tensor preprocessing passes, the
sweep, and the final print. -/
def notebookEvents (ctx : Ctx) (fit : FitOracle)
    (ss : List String) (ls : List ℚ) : List Ev :=
  [Ev.loadData "dogImages/train", Ev.loadData "dogImages/valid",
   Ev.loadData "dogImages/test",
   Ev.preprocess "train_tensors", Ev.preprocess "valid_tensors",
   Ev.preprocess "test_tensors"]
  ++ sweepEvents ctx fit ss ls
  ++ [Ev.printResults]

/-! ## Auxiliary lemmas about one-hot rows -/

/-- Counting the single 1 in a one-hot row. -/
theorem count_one_range (n t : Nat) :
    (((List.range n).map fun i => if i = t then 1 else 0).count 1)
      = if t < n then 1 else 0 := by
  induction n with
  | zero => simp
  | succ n ih =>
    rw [List.range_succ, List.map_append, List.count_append, ih]
    by_cases h : t < n
    · have hne : n ≠ t := by omega
      simp [h, hne, Nat.lt_succ_of_lt h]
    · by_cases he : n = t
      · subst he
        simp [h, Nat.lt_succ_self]
      · have : ¬ t < n + 1 := by omega
        simp [h, he, this]

theorem to_categorical_row (y : List Nat) (n : Nat) (rows : List (List Nat))
    (hy : to_categorical y n = some rows) :
    ∀ row ∈ rows, row.length = n ∧ row.count 1 = 1 ∧ ∀ x ∈ row, x = 0 ∨ x = 1 := by
  intro row hrow
  unfold to_categorical at hy
  split at hy
  · rename_i hall
    injection hy with hy
    subst hy
    obtain ⟨t, hty, rfl⟩ := List.mem_map.1 hrow
    have htn : t < n := by simpa using List.all_eq_true.1 hall t hty
    refine ⟨by simp, ?_, ?_⟩
    · rw [count_one_range]
      simp [htn]
    · intro x hx
      obtain ⟨i, _, rfl⟩ := List.mem_map.1 hx
      by_cases h : i = t <;> simp [h]
  · exact absurd hy (by simp)

/-! ## Shared concrete inputs for witnesses -/

/-- A small concrete dataset directory with two class subdirectories. -/
def exampleFolder : ImageFolder :=
  ⟨[("001.Affenpinscher", ["img1.jpg"]), ("002.Afghan_hound", ["img2.jpg", "img3.jpg"])]⟩

/-- The file list load_dataset returns on exampleFolder. -/
def exampleFiles : List String := (load_files exampleFolder).1

/-- The one-hot target matrix load_dataset returns on exampleFolder. -/
def exampleTargets : List (List Nat) :=
  (to_categorical (load_files exampleFolder).2 133).getD []

/-- The first target row on exampleFolder. -/
def exampleRow : List Nat := exampleTargets.getD 0 []

/-- A concrete global state for witness instantiations. -/
def ctxEx : Ctx :=
  { train_tensors := [[1], [2], [3]]
    train_targets := [[1, 0], [0, 1], [1, 0]]
    valid_tensors := [[4]]
    valid_targets := [[0, 1]]
    input_shape := [224, 224, 3]
    nc := 133
    epochs := 2 }

/-- A concrete fit oracle for witness instantiations. -/
def fitEx : FitOracle := fun _ _ _ => ⟨[], [], [], []⟩

/-! ## Claim theorems -/

/-- Any target matrix produced by load_dataset consists of one-hot rows
of width 133. -/
theorem load_dataset_rows (d : ImageFolder) (files : List String)
    (targets : List (List Nat)) (h : load_dataset d = some (files, targets)) :
    ∀ row ∈ targets,
      row.length = 133 ∧ row.count 1 = 1 ∧ ∀ x ∈ row, x = 0 ∨ x = 1 := by
  intro row hrow
  simp only [load_dataset] at h
  cases hc : to_categorical (load_files d).2 133 with
  | none =>
    rw [hc] at h
    exact absurd h (by simp)
  | some rows =>
    rw [hc] at h
    have hrt : rows = targets := by
      injection h with h
      exact congrArg Prod.snd h
    exact to_categorical_row _ _ _ (hrt ▸ hc) row hrow

/-- C4: for every dataset path, each target row returned by load_dataset
is a one-hot vector of width exactly 133 (a single entry 1, all others
0), independently of how many class subdirectories the path holds — the
width is the hard-coded 133, never the class count. -/
theorem load_dataset_targets_one_hot (d : ImageFolder) (files : List String)
    (targets : List (List Nat)) (h : load_dataset d = some (files, targets)) :
    ∀ row ∈ targets,
      row.length = 133 ∧ row.count 1 = 1 ∧ ∀ x ∈ row, x = 0 ∨ x = 1 :=
  load_dataset_rows d files targets h

/-- Witness for C4 at the concrete exampleFolder. -/
theorem load_dataset_targets_one_hot_witness :
    load_dataset exampleFolder = some (exampleFiles, exampleTargets)
    ∧ exampleRow ∈ exampleTargets
    ∧ exampleRow.length = 133 ∧ exampleRow.count 1 = 1 :=
  ⟨by decide, by decide,
   (load_dataset_targets_one_hot exampleFolder exampleFiles exampleTargets
      (by decide) exampleRow (by decide)).1,
   (load_dataset_targets_one_hot exampleFolder exampleFiles exampleTargets
      (by decide) exampleRow (by decide)).2.1⟩

/-- C1 counterexample: the scratch and finetune models do NOT differ only
in which layers are trainable — with the trainable flags erased they are
still different models, because create_scratch_model passes weights=None
(random initialization) while create_finetune_model passes
weights="imagenet".  The scratch variant is also not an extension of a
pretrained base at all. -/
theorem models_differ_beyond_trainable_cex :
    forgetTrainable (create_scratch_model [224, 224, 3] 133).model
      ≠ forgetTrainable (create_finetune_model [224, 224, 3] 133).model := by
  intro h
  have hw := congrArg (fun m => (m.layers.map Layer.weightsInit).head?) h
  dsimp only at hw
  have hs : ((forgetTrainable (create_scratch_model [224, 224, 3] 133).model).layers.map
      Layer.weightsInit).head? = some "random" := by rfl
  have hf : ((forgetTrainable (create_finetune_model [224, 224, 3] 133).model).layers.map
      Layer.weightsInit).head? = some "imagenet" := by rfl
  rw [hs, hf] at hw
  exact absurd (Option.some.inj hw) (by decide)

/-- C1 (amended): the three builders construct the same architecture over
the same input shape — the identical InceptionV3 base extended by the
identical head GlobalAveragePooling2D, Dense(512, relu),
Dense(num_classes, softmax) — but the variants differ both in base-weight
initialization (scratch: random via weights=None; finetune and frozen:
imagenet) and in which layers are trainable (frozen: every base layer
non-trainable; scratch and finetune: all layers trainable). -/
theorem builders_share_architecture_amended (sh : List Nat) (nc : Nat) :
    (forgetTrainableWeights (create_scratch_model sh nc).model
        = forgetTrainableWeights (create_finetune_model sh nc).model
      ∧ forgetTrainableWeights (create_finetune_model sh nc).model
        = forgetTrainableWeights (create_frozen_model sh nc).model)
    ∧ ((create_scratch_model sh nc).model.layers.drop 311
        = [gapLayer, denseLayer 512 "relu", denseLayer nc "softmax"]
      ∧ (create_finetune_model sh nc).model.layers.drop 311
        = [gapLayer, denseLayer 512 "relu", denseLayer nc "softmax"]
      ∧ (create_frozen_model sh nc).model.layers.drop 311
        = [gapLayer, denseLayer 512 "relu", denseLayer nc "softmax"])
    ∧ ((create_scratch_model sh nc).model.input_shape = sh
      ∧ (create_finetune_model sh nc).model.input_shape = sh
      ∧ (create_frozen_model sh nc).model.input_shape = sh)
    ∧ ((create_scratch_model sh nc).model.output_shape = [nc]
      ∧ (create_finetune_model sh nc).model.output_shape = [nc]
      ∧ (create_frozen_model sh nc).model.output_shape = [nc])
    ∧ (∀ l ∈ (create_scratch_model sh nc).base.layers,
        l.weightsInit = "random" ∧ l.trainable = true)
    ∧ (∀ l ∈ (create_finetune_model sh nc).base.layers,
        l.weightsInit = "imagenet" ∧ l.trainable = true)
    ∧ (∀ l ∈ (create_frozen_model sh nc).base.layers,
        l.weightsInit = "imagenet" ∧ l.trainable = false) := by
  refine ⟨⟨rfl, rfl⟩, ⟨rfl, rfl, rfl⟩, ⟨rfl, rfl, rfl⟩, ⟨rfl, rfl, rfl⟩, ?_, ?_, ?_⟩
  · intro l hl
    have hb : (create_scratch_model sh nc).base.layers
        = (List.range 311).map (inceptionLayer none) := rfl
    rw [hb] at hl
    obtain ⟨i, -, rfl⟩ := List.mem_map.1 hl
    exact ⟨rfl, rfl⟩
  · intro l hl
    have hb : (create_finetune_model sh nc).base.layers
        = (List.range 311).map (inceptionLayer (some "imagenet")) := rfl
    rw [hb] at hl
    obtain ⟨i, -, rfl⟩ := List.mem_map.1 hl
    exact ⟨rfl, rfl⟩
  · intro l hl
    have hb : (create_frozen_model sh nc).base.layers
        = ((List.range 311).map (inceptionLayer (some "imagenet"))).map
            (fun layer => { layer with trainable := false }) := rfl
    rw [hb] at hl
    obtain ⟨l', hl', rfl⟩ := List.mem_map.1 hl
    obtain ⟨i, -, rfl⟩ := List.mem_map.1 hl'
    exact ⟨rfl, rfl⟩

/-- Witness for the amended C1 at concrete inputs. -/
theorem builders_share_architecture_witness :
    inceptionLayer none 0 ∈ (create_scratch_model [224, 224, 3] 133).base.layers
    ∧ (inceptionLayer none 0).weightsInit = "random"
    ∧ (inceptionLayer none 0).trainable = true :=
  ⟨by decide,
   ((builders_share_architecture_amended [224, 224, 3] 133).2.2.2.2.1
      (inceptionLayer none 0) (by decide)).1,
   ((builders_share_architecture_amended [224, 224, 3] 133).2.2.2.2.1
      (inceptionLayer none 0) (by decide)).2⟩

/-- C6: create_frozen_model sets trainable = False on every layer of its
InceptionV3 base model, and writes no other attribute: each layer of the
resulting base agrees with the corresponding freshly constructed
InceptionV3 layer on name, units, activation and weight initialization,
differing at most in the trainable flag. -/
theorem frozen_model_freezes_base_only (sh : List Nat) (nc : Nat) :
    (create_frozen_model sh nc).base.layers.length
      = (InceptionV3 false (some "imagenet") sh).layers.length
    ∧ (∀ l ∈ (create_frozen_model sh nc).base.layers, l.trainable = false)
    ∧ (∀ i (h1 : i < (create_frozen_model sh nc).base.layers.length)
        (h2 : i < (InceptionV3 false (some "imagenet") sh).layers.length),
        (create_frozen_model sh nc).base.layers.get ⟨i, h1⟩
          = { (InceptionV3 false (some "imagenet") sh).layers.get ⟨i, h2⟩ with
              trainable := false }) := by
  have hb : (create_frozen_model sh nc).base.layers
      = (InceptionV3 false (some "imagenet") sh).layers.map
          (fun layer => { layer with trainable := false }) := rfl
  refine ⟨by rw [hb]; exact List.length_map _ _, ?_, ?_⟩
  · intro l hl
    rw [hb] at hl
    obtain ⟨l', -, rfl⟩ := List.mem_map.1 hl
    rfl
  · intro i h1 h2
    simp only [hb, List.get_eq_getElem, List.getElem_map]

/-- Witness for C6 at concrete inputs. -/
theorem frozen_model_freezes_base_only_witness :
    (0 : Nat) < (create_frozen_model [224, 224, 3] 133).base.layers.length
    ∧ (create_frozen_model [224, 224, 3] 133).base.layers.get
        ⟨0, by decide⟩
      = { (InceptionV3 false (some "imagenet") [224, 224, 3]).layers.get
            ⟨0, by decide⟩ with trainable := false } :=
  ⟨by decide,
   (frozen_model_freezes_base_only [224, 224, 3] 133).2.2 0 (by decide) (by decide)⟩

/-- C7: the classification head of every variant has width num_classes, the
number of class subdirectories of dogImages/train, while every target
row has width hard-coded to 133; the model output dimension equals the
target dimension exactly when the train directory has 133 class
subdirectories. -/
theorem head_width_matches_target_iff (d : ImageFolder) (sh : List Nat) :
    num_classes d = d.classes.length
    ∧ (create_scratch_model sh (num_classes d)).model.output_shape
        = [num_classes d]
    ∧ (create_finetune_model sh (num_classes d)).model.output_shape
        = [num_classes d]
    ∧ (create_frozen_model sh (num_classes d)).model.output_shape
        = [num_classes d]
    ∧ (∀ files targets, load_dataset d = some (files, targets) →
        ∀ row ∈ targets, row.length = 133)
    ∧ ((create_finetune_model sh (num_classes d)).model.output_shape = [133]
        ↔ d.classes.length = 133) := by
  have hn : num_classes d = d.classes.length := by
    simp [num_classes, dog_names]
  refine ⟨hn, rfl, rfl, rfl, ?_, ?_⟩
  · intro files targets h row hrow
    exact (load_dataset_rows d files targets h row hrow).1
  · have ho : (create_finetune_model sh (num_classes d)).model.output_shape
        = [num_classes d] := rfl
    rw [ho, hn]
    constructor
    · intro h
      injection h
    · intro h
      rw [h]

/-- Witness for C7 at the concrete exampleFolder. -/
theorem head_width_matches_target_iff_witness :
    load_dataset exampleFolder = some (exampleFiles, exampleTargets)
    ∧ exampleRow ∈ exampleTargets
    ∧ exampleRow.length = 133 :=
  ⟨by decide, by decide,
   (head_width_matches_target_iff exampleFolder [224, 224, 3]).2.2.2.2.1
     exampleFiles exampleTargets (by decide) exampleRow (by decide)⟩

/-! ## Helper lemmas about train and the sweep -/

theorem train_events_eq (ctx : Ctx) (fit : FitOracle) (model : KModel)
    (solver : String) (lr : ℚ) :
    (train ctx fit model solver lr).events
      = (match compile_for solver lr with
          | some _ => [Ev.compileCall solver lr]
          | none => []) ++ [Ev.fitCall solver lr] := rfl

theorem count_create_train (ctx : Ctx) (fit : FitOracle) (model : KModel)
    (solver : String) (lr : ℚ) (b : String) :
    ((train ctx fit model solver lr).events).count (Ev.createModel b) = 0 := by
  rw [train_events_eq]
  cases compile_for solver lr <;> rfl

theorem createModel_not_mem_train_events (ctx : Ctx) (fit : FitOracle)
    (model : KModel) (solver : String) (lr : ℚ) (b : String) :
    Ev.createModel b ∉ (train ctx fit model solver lr).events := by
  rw [train_events_eq]
  cases compile_for solver lr <;> simp

theorem sweepIter_fst (ctx : Ctx) (fit : FitOracle) (s : String) (lr : ℚ) :
    (sweepIter ctx fit s lr).1
      = some (train ctx fit (create_finetune_model ctx.input_shape ctx.nc).model
          s lr).ret := rfl

theorem sweepIter_snd (ctx : Ctx) (fit : FitOracle) (s : String) (lr : ℚ) :
    (sweepIter ctx fit s lr).2
      = Ev.createModel "create_finetune_model"
        :: (train ctx fit (create_finetune_model ctx.input_shape ctx.nc).model
            s lr).events
        ++ [Ev.appendResult s lr] := rfl

theorem filterMap_some_eq_map {α β : Type} (f : α → β) (l : List α) :
    (l.filterMap fun a => some (f a)) = l.map f := by
  induction l with
  | nil => rfl
  | cons a l ih =>
    rw [show List.filterMap (fun a => some (f a)) (a :: l)
          = f a :: List.filterMap (fun a => some (f a)) l
        from List.filterMap_cons_some rfl, ih, List.map_cons]

theorem filterMap_sweepIter (ctx : Ctx) (fit : FitOracle) (s : String)
    (ls : List ℚ) :
    (ls.filterMap fun lr => (sweepIter ctx fit s lr).1)
      = ls.map fun lr =>
          (train ctx fit (create_finetune_model ctx.input_shape ctx.nc).model
            s lr).ret :=
  filterMap_some_eq_map
    (fun lr =>
      (train ctx fit (create_finetune_model ctx.input_shape ctx.nc).model
        s lr).ret) ls

theorem sweepResults_eq (ctx : Ctx) (fit : FitOracle) (ss : List String)
    (ls : List ℚ) :
    sweepResults ctx fit ss ls
      = ss.flatMap fun s => ls.map fun lr =>
          (train ctx fit (create_finetune_model ctx.input_shape ctx.nc).model
            s lr).ret := by
  unfold sweepResults
  induction ss with
  | nil => rfl
  | cons s ss ih =>
    rw [List.flatMap_cons, List.flatMap_cons, filterMap_sweepIter, ih]

theorem count_create_iter (ctx : Ctx) (fit : FitOracle) (s : String) (lr : ℚ) :
    ((sweepIter ctx fit s lr).2).count (Ev.createModel "create_finetune_model")
      = 1 := by
  rw [sweepIter_snd]
  rw [show (Ev.createModel "create_finetune_model"
        :: (train ctx fit (create_finetune_model ctx.input_shape ctx.nc).model
            s lr).events
        ++ [Ev.appendResult s lr]).count (Ev.createModel "create_finetune_model")
      = ((train ctx fit (create_finetune_model ctx.input_shape ctx.nc).model
            s lr).events
          ++ [Ev.appendResult s lr]).count (Ev.createModel "create_finetune_model")
          + 1
    from List.count_cons_self _ _]
  rw [List.count_append, count_create_train]
  rfl

theorem count_create_inner (ctx : Ctx) (fit : FitOracle) (s : String)
    (ls : List ℚ) :
    ((ls.flatMap fun lr => (sweepIter ctx fit s lr).2).count
      (Ev.createModel "create_finetune_model")) = ls.length := by
  induction ls with
  | nil => rfl
  | cons lr ls ih =>
    rw [List.flatMap_cons, List.count_append, ih, count_create_iter,
      List.length_cons]
    omega

theorem count_create_sweep (ctx : Ctx) (fit : FitOracle) (ss : List String)
    (ls : List ℚ) :
    (sweepEvents ctx fit ss ls).count (Ev.createModel "create_finetune_model")
      = ss.length * ls.length := by
  unfold sweepEvents
  induction ss with
  | nil => simp
  | cons s ss ih =>
    rw [List.flatMap_cons, List.count_append, ih, count_create_inner,
      List.length_cons]
    ring

/-- C2: only create_finetune_model returns a model (scratch and frozen
build theirs in a local variable and return None), and the sweep invokes
create_finetune_model and no other builder, once per configuration. -/
theorem only_finetune_returns_model (sh : List Nat) (nc : Nat) (ctx : Ctx)
    (fit : FitOracle) (ss : List String) (ls : List ℚ) :
    (create_scratch_model sh nc).ret = none
    ∧ (create_frozen_model sh nc).ret = none
    ∧ (create_finetune_model sh nc).ret = some (create_finetune_model sh nc).model
    ∧ (∀ e ∈ sweepEvents ctx fit ss ls, ∀ b, e = Ev.createModel b →
        b = "create_finetune_model")
    ∧ (sweepEvents ctx fit ss ls).count (Ev.createModel "create_finetune_model")
      = ss.length * ls.length := by
  refine ⟨rfl, rfl, rfl, ?_, count_create_sweep ctx fit ss ls⟩
  intro e he b heb
  subst heb
  unfold sweepEvents at he
  obtain ⟨s, -, he⟩ := List.mem_flatMap.1 he
  obtain ⟨lr, -, he⟩ := List.mem_flatMap.1 he
  rw [sweepIter_snd] at he
  rcases List.mem_cons.1 he with h | h
  · injection h
  · rcases List.mem_append.1 h with h | h
    · exact absurd h (createModel_not_mem_train_events ctx fit _ s lr b)
    · exact absurd (List.mem_singleton.1 h) (by simp)

/-- Witness for C2 at concrete inputs. -/
theorem only_finetune_returns_model_witness :
    Ev.createModel "create_finetune_model"
      ∈ sweepEvents ctxEx fitEx ["sgd"] [1 / 1000]
    ∧ "create_finetune_model" = "create_finetune_model" :=
  ⟨List.mem_cons_self _ _,
   (only_finetune_returns_model [224, 224, 3] 133 ctxEx fitEx
      ["sgd"] [1 / 1000]).2.2.2.1
     (Ev.createModel "create_finetune_model") (List.mem_cons_self _ _)
     "create_finetune_model" rfl⟩

/-- C3: the sweep covers every optimizer/learning-rate pair in
nested-loop order (solvers outer, learning rates inner), creating a
fresh model once per pair and appending exactly one (solver, lr,
history) triple per pair, so results has length exactly
len(solvers) * len(learning_rates); on the concrete lists of the notebook the
configurations are sgd at 5e-4 then sgd at 1e-3. -/
theorem sweep_covers_all_pairs (ctx : Ctx) (fit : FitOracle)
    (ss : List String) (ls : List ℚ) :
    ((sweepResults ctx fit ss ls).map fun r => (r.1, r.2.1))
      = (ss.flatMap fun s => ls.map fun lr => (s, lr))
    ∧ (sweepResults ctx fit ss ls).length = ss.length * ls.length
    ∧ ((sweepResults ctx fit solvers learning_rates).map fun r => (r.1, r.2.1))
      = [("sgd", 5 / 10000), ("sgd", 1 / 1000)]
    ∧ (sweepResults ctx fit solvers learning_rates).length
      = solvers.length * learning_rates.length
    ∧ (sweepEvents ctx fit ss ls).count (Ev.createModel "create_finetune_model")
      = ss.length * ls.length := by
  refine ⟨?_, ?_, rfl, rfl, count_create_sweep ctx fit ss ls⟩
  · rw [sweepResults_eq, List.map_flatMap]
    simp only [List.map_map]
    rfl
  · rw [sweepResults_eq, List.length_flatMap]
    simp [Function.comp_def, List.length_map, List.map_const',
      List.sum_replicate, smul_eq_mul]

/-- C5: train validates nothing about its solver argument and defines no
errors of its own: for any solver whose lowercased form is none of
"sgd", "nesterov", "adam", no compile call happens and execution falls
through directly to model.fit, whose outcome is whatever the framework
oracle produces. -/
theorem train_unknown_solver_no_compile (ctx : Ctx) (fit : FitOracle)
    (model : KModel) (solver : String) (lr : ℚ)
    (h : pyLower solver ∉ (["sgd", "nesterov", "adam"] : List String)) :
    (train ctx fit model solver lr).compiled = none
    ∧ (train ctx fit model solver lr).events = [Ev.fitCall solver lr]
    ∧ (train ctx fit model solver lr).ret
        = (solver, lr, fit model none (train ctx fit model solver lr).fit_args) := by
  have hc : compile_for solver lr = none := by
    simp only [List.mem_cons, List.not_mem_nil, or_false, not_or] at h
    obtain ⟨h1, h2, h3⟩ := h
    simp [compile_for, h1, h2, h3]
  refine ⟨hc, ?_, ?_⟩
  · rw [train_events_eq, hc]
    rfl
  · show (solver, lr, fit model (compile_for solver lr) _) = _
    rw [hc]
    rfl

/-- Witness for C5 with the unrecognized solver name "rmsprop". -/
theorem train_unknown_solver_no_compile_witness :
    pyLower "rmsprop" ∉ (["sgd", "nesterov", "adam"] : List String)
    ∧ (train ctxEx fitEx (create_finetune_model [224, 224, 3] 133).model
        "rmsprop" (1 / 1000)).compiled = none :=
  ⟨by decide,
   (train_unknown_solver_no_compile ctxEx fitEx
      (create_finetune_model [224, 224, 3] 133).model "rmsprop" (1 / 1000)
      (by decide)).1⟩

/-- C9: every call of train fits on at most the first 48 training
tensors/targets and validates on at most the first 20 validation
tensors/targets, whatever the loaded dataset sizes are: the fit
arguments are the 48- and 20-element initial slices, their lengths never
exceed 48 and 20, and each retained element equals the dataset element
at the same index. -/
theorem train_fits_first_48_and_20 (ctx : Ctx) (fit : FitOracle)
    (model : KModel) (solver : String) (lr : ℚ) :
    (train ctx fit model solver lr).fit_args.x = ctx.train_tensors.take 48
    ∧ (train ctx fit model solver lr).fit_args.y = ctx.train_targets.take 48
    ∧ (train ctx fit model solver lr).fit_args.validation_x
        = ctx.valid_tensors.take 20
    ∧ (train ctx fit model solver lr).fit_args.validation_y
        = ctx.valid_targets.take 20
    ∧ (train ctx fit model solver lr).fit_args.x.length ≤ 48
    ∧ (train ctx fit model solver lr).fit_args.y.length ≤ 48
    ∧ (train ctx fit model solver lr).fit_args.validation_x.length ≤ 20
    ∧ (train ctx fit model solver lr).fit_args.validation_y.length ≤ 20
    ∧ (∀ i (h1 : i < (train ctx fit model solver lr).fit_args.x.length)
        (h2 : i < ctx.train_tensors.length),
        (train ctx fit model solver lr).fit_args.x.get ⟨i, h1⟩
          = ctx.train_tensors.get ⟨i, h2⟩)
    ∧ (∀ i (h1 : i < (train ctx fit model solver lr).fit_args.validation_x.length)
        (h2 : i < ctx.valid_tensors.length),
        (train ctx fit model solver lr).fit_args.validation_x.get ⟨i, h1⟩
          = ctx.valid_tensors.get ⟨i, h2⟩) := by
  refine ⟨rfl, rfl, rfl, rfl,
    List.length_take_le _ _, List.length_take_le _ _,
    List.length_take_le _ _, List.length_take_le _ _, ?_, ?_⟩
  · intro i h1 h2
    show (ctx.train_tensors.take 48).get ⟨i, h1⟩ = ctx.train_tensors.get ⟨i, h2⟩
    simp only [List.get_eq_getElem]
    exact List.getElem_take ctx.train_tensors
  · intro i h1 h2
    show (ctx.valid_tensors.take 20).get ⟨i, h1⟩ = ctx.valid_tensors.get ⟨i, h2⟩
    simp only [List.get_eq_getElem]
    exact List.getElem_take ctx.valid_tensors

/-- Witness for C9 at concrete inputs. -/
theorem train_fits_first_48_and_20_witness :
    (0 : Nat) < (train ctxEx fitEx (create_finetune_model [224, 224, 3] 133).model
        "sgd" (1 / 1000)).fit_args.x.length
    ∧ (0 : Nat) < ctxEx.train_tensors.length
    ∧ (train ctxEx fitEx (create_finetune_model [224, 224, 3] 133).model
        "sgd" (1 / 1000)).fit_args.x.get ⟨0, by decide⟩
      = ctxEx.train_tensors.get ⟨0, by decide⟩ :=
  ⟨by decide, by decide,
   (train_fits_first_48_and_20 ctxEx fitEx
      (create_finetune_model [224, 224, 3] 133).model "sgd" (1 / 1000)).2.2.2.2.2.2.2.2.1
     0 (by decide) (by decide)⟩

/-- C10: one synchronous linear sequence: the full run trace of the
notebook is exactly this fixed list — the three dataset loads, then the
three preprocessing passes, then for each configuration in order a
create, a compile, a fit and an append, each completing before the next
event, and the final print last; no concurrent or interleaved step
exists in the trace. -/
theorem notebook_single_linear_trace (ctx : Ctx) (fit : FitOracle) :
    notebookEvents ctx fit solvers learning_rates
      = [Ev.loadData "dogImages/train", Ev.loadData "dogImages/valid",
         Ev.loadData "dogImages/test",
         Ev.preprocess "train_tensors", Ev.preprocess "valid_tensors",
         Ev.preprocess "test_tensors",
         Ev.createModel "create_finetune_model",
         Ev.compileCall "sgd" (5 / 10000), Ev.fitCall "sgd" (5 / 10000),
         Ev.appendResult "sgd" (5 / 10000),
         Ev.createModel "create_finetune_model",
         Ev.compileCall "sgd" (1 / 1000), Ev.fitCall "sgd" (1 / 1000),
         Ev.appendResult "sgd" (1 / 1000),
         Ev.printResults] := rfl

/-- C8 counterexample: the program does not compare the recorded
validation losses — the post-sweep step print(results) produces the
identical output on two results lists that differ precisely in their
recorded validation losses, because the printed repr of a History object
does not contain the history values at all. -/
theorem print_results_ignores_val_loss_cex :
    print_results [("sgd", 1 / 1000, (⟨[34], [5], [51], [0]⟩ : History))]
      = print_results [("sgd", 1 / 1000, (⟨[34], [5], [52], [1]⟩ : History))]
    ∧ (⟨[34], [5], [51], [0]⟩ : History).val_loss
      ≠ (⟨[34], [5], [52], [1]⟩ : History).val_loss :=
  ⟨rfl, by decide⟩

/-- C8 (amended): after the sweep the program prints the results list,
whose printed form shows only the solver, the learning rate and an
opaque History object reference per configuration; the output is fully
determined by the configurations and does not depend on the recorded
validation losses, so the comparison of validation losses is performed
informally by the reader, not computed by the program. -/
theorem print_results_configs_determine_output
    (r1 r2 : List (String × ℚ × History))
    (h : (r1.map fun e => (e.1, e.2.1)) = r2.map fun e => (e.1, e.2.1)) :
    print_results r1 = print_results r2 := by
  have key : ∀ r : List (String × ℚ × History),
      print_results r
        = (r.map fun e => (e.1, e.2.1)).map
            fun p => (p.1, p.2, "<keras.callbacks.History object>") := by
    intro r
    simp only [print_results, List.map_map]
    rfl
  rw [key, key, h]

/-- Witness for the amended C8 at concrete inputs. -/
theorem print_results_configs_determine_output_witness :
    print_results [("sgd", 1 / 1000, (⟨[], [], [7], []⟩ : History))]
      = print_results [("sgd", 1 / 1000, (⟨[], [], [8], []⟩ : History))] :=
  print_results_configs_determine_output _ _ rfl

end DogProject
